import Mathlib

/-!
Verification of the yambot overlay core (main overlay script + wheel.js)
against its natural-language specification.

The development shallowly embeds:
* the Transport `send` guard (main script, `send`),
* the WebSocket reconnect logic (`connect` and its handlers) as an explicit
  transition system over an abstract timer model,
* the Layout Store scale paths (`applyPositions`, `resize`, `resetPositions`),
* the Spin Engine (`wheel.js`: `setItems`, `spin`, `showResult`, `hide`,
  `isBusy`, `spinAndShow`, `reset`) and the dispatcher `handleTriggerAction`,
* the winner-index computation of `spin` over an arbitrary linear ordered
  field with a floor, parameterised by the positive constant `twoPi`
  standing for the real number 2*pi (the source computes with IEEE doubles;
  the exact-arithmetic embedding is parametric in the constant, and every
  theorem below holds for every positive value of it, in particular 2*pi).

Numeric JS values are modelled as elements of a `LinearOrderedField` (or `Rat`
where a concrete field suffices); JS `%` (truncated remainder) is `jsMod`.
-/

namespace Yambot

/-- A minimal JSON value model for the wire messages the overlay sends and
receives.  Only the constructors the overlay actually uses appear. -/
inductive Json where
  | null : Json
  | bool (b : Bool) : Json
  | num (q : ℚ) : Json
  | str (s : String) : Json
  | arr (xs : List Json) : Json
  | obj (fields : List (String × Json)) : Json

/-- JSON serialisation of a string literal (escaping elided: the overlay's
message fields are plain identifiers and labels). -/
def jsonQuote (s : String) : String := "\"" ++ s ++ "\""

mutual

/-- `JSON.stringify` on the model: the serialisation `send` applies to every
outbound message before transmitting it. -/
def stringify : Json → String
  | Json.null => "null"
  | Json.bool b => if b then "true" else "false"
  | Json.num q => toString q
  | Json.str s => jsonQuote s
  | Json.arr xs => "[" ++ stringifyList xs ++ "]"
  | Json.obj fs => "\x7b" ++ stringifyFields fs ++ "\x7d"

/-- Serialise the elements of a JSON array, comma-separated. -/
def stringifyList : List Json → String
  | [] => ""
  | [x] => stringify x
  | x :: xs => stringify x ++ "," ++ stringifyList xs

/-- Serialise the fields of a JSON object, comma-separated. -/
def stringifyFields : List (String × Json) → String
  | [] => ""
  | [(k, v)] => jsonQuote k ++ ":" ++ stringify v
  | (k, v) :: fs => jsonQuote k ++ ":" ++ stringify v ++ "," ++ stringifyFields fs

end

/-! ## Transport: the `send` guard (main script, function `send`) -/

/-- The `readyState` of a browser WebSocket. -/
inductive ReadyState where
  | connecting | opened | closing | closed
  deriving Repr, DecidableEq

/-- The transport-relevant global state of the main script: the `ws` variable
is either `null` or a socket with a ready state. -/
structure Transport where
  ws : Option ReadyState
  deriving Repr, DecidableEq

/-- The observable effect of one `send` call: the serialised frame put on the
wire, or a dropped message (the source logs a console warning and discards). -/
inductive SendEffect where
  | transmitted (frame : String) : SendEffect
  | droppedWithWarning : SendEffect
  deriving Repr, DecidableEq

/-- `send(data)` from the main script: transmit `JSON.stringify(data)` when
`ws && ws.readyState === WebSocket.OPEN`, otherwise warn and drop.  The
returned `Transport` is the post-state of the global connection variables. -/
def send (t : Transport) (data : Json) : Transport × SendEffect :=
  if t.ws = some ReadyState.opened then
    (t, SendEffect.transmitted (stringify data))
  else
    (t, SendEffect.droppedWithWarning)

/-! ## Layout Store scale paths -/

/-- `applyPositions` normalisation of the incoming scale field (main script,
`const scale = positions.wheel.scale || 1`): a missing scale or the falsy
number `0` becomes `1`; any other value is applied unchanged (no clamping
on this path). -/
def normalizeScale (s : Option ℚ) : ℚ :=
  match s with
  | none => 1
  | some v => if v = 0 then 1 else v

/-- A widget layout as stored on the container element: centre position in
viewport percent and the applied scale factor. -/
structure WidgetLayout where
  x : ℚ
  y : ℚ
  scale : ℚ
  deriving Repr, DecidableEq

/-- The `positions.wheel` payload of a `config_update`: position and an
optional scale field. -/
structure WheelPositions where
  x : ℚ
  y : ℚ
  scale : Option ℚ
  deriving Repr, DecidableEq

/-- `applyPositions` (main script): replace the wheel's layout with the
server-pushed position and the normalised scale. -/
def applyPositions (pos : WheelPositions) : WidgetLayout :=
  { x := pos.x, y := pos.y, scale := normalizeScale pos.scale }

/-- The scale computation of one `resize` mouse-move (main script, `resize`):
`delta = Math.max(deltaX, deltaY)`, `scaleChange = delta / 200`,
`newScale = Math.max(0.3, Math.min(3.0, resizeStartScale + scaleChange))`. -/
def resizeScale (startScale deltaX deltaY : ℚ) : ℚ :=
  let delta := max deltaX deltaY
  let scaleChange := delta / 200
  let newScale := startScale + scaleChange
  max (3/10) (min 3 newScale)

/-- The built-in default layout restored by `resetPositions` (main script):
`wheel: \x7b x: 50, y: 50, scale: 1.0 \x7d`. -/
def resetDefaultLayout : WidgetLayout := { x := 50, y := 50, scale := 1 }

/-- The clamp operation as the specification phrases it:
`clamp(v, lo, hi) = min hi (max lo v)`. -/
def specClamp (v lo hi : ℚ) : ℚ := min hi (max lo v)

/-! ## Spin Engine winner computation (wheel.js, `spin`)

The source computes with IEEE doubles and the constant `2 * Math.PI`.  The
embedding is exact arithmetic over any linear ordered field with a floor,
parametric in the positive constant `twoPi`; every theorem holds for every
positive value of the constant, in particular the real number 2*pi. -/

variable {α : Type} [LinearOrderedField α] [FloorRing α]

/-- JavaScript's `%` operator (truncated remainder): the quotient is rounded
toward zero, so the result carries the sign of the dividend. -/
def jsMod (a b : α) : α :=
  if 0 ≤ a / b then a - b * ⌊a / b⌋ else a - b * ⌈a / b⌉

/-- `sliceAngle = (2 * Math.PI) / this.items.length` (wheel.js, `spin`). -/
def sliceAngle (twoPi : α) (n : ℕ) : α := twoPi / n

/-- `normalizedRotation = (2π - (currentRotation % 2π)) % 2π`
(wheel.js, `spin`, winner calculation). -/
def normalizedRotation (twoPi rot : α) : α :=
  jsMod (twoPi - jsMod rot twoPi) twoPi

/-- `winnerIndex = Math.floor(normalizedRotation / sliceAngle)`
(wheel.js, `spin`, winner calculation). -/
def winnerIndex (twoPi : α) (n : ℕ) (rot : α) : ℤ :=
  ⌊normalizedRotation twoPi rot / sliceAngle twoPi n⌋

theorem jsMod_eq_mul_fract (a b : α) (hb : 0 < b) (ha : 0 ≤ a) :
    jsMod a b = b * Int.fract (a / b) := by
  have hdiv : 0 ≤ a / b := div_nonneg ha hb.le
  have h1 : Int.fract (a / b) = a / b - ⌊a / b⌋ := rfl
  rw [jsMod, if_pos hdiv, h1, mul_sub, mul_div_cancel₀ _ hb.ne']

theorem jsMod_nonneg (a b : α) (hb : 0 < b) (ha : 0 ≤ a) : 0 ≤ jsMod a b := by
  rw [jsMod_eq_mul_fract a b hb ha]
  exact mul_nonneg hb.le (Int.fract_nonneg _)

theorem jsMod_lt (a b : α) (hb : 0 < b) (ha : 0 ≤ a) : jsMod a b < b := by
  rw [jsMod_eq_mul_fract a b hb ha]
  calc b * Int.fract (a / b) < b * 1 :=
        mul_lt_mul_of_pos_left (Int.fract_lt_one _) hb
    _ = b := mul_one b

theorem jsMod_self (b : α) (hb : 0 < b) : jsMod b b = 0 := by
  rw [jsMod, div_self hb.ne']
  simp

theorem normalizedRotation_nonneg (twoPi rot : α) (htp : 0 < twoPi)
    (hrot : 0 ≤ rot) : 0 ≤ normalizedRotation twoPi rot :=
  jsMod_nonneg _ _ htp (sub_nonneg.2 (jsMod_lt rot twoPi htp hrot).le)

theorem normalizedRotation_lt (twoPi rot : α) (htp : 0 < twoPi)
    (hrot : 0 ≤ rot) : normalizedRotation twoPi rot < twoPi :=
  jsMod_lt _ _ htp (sub_nonneg.2 (jsMod_lt rot twoPi htp hrot).le)

theorem winnerIndex_nonneg (twoPi rot : α) (n : ℕ) (htp : 0 < twoPi)
    (hn : 1 ≤ n) (hrot : 0 ≤ rot) : 0 ≤ winnerIndex twoPi n rot := by
  have hnpos : (0:α) < n := by exact_mod_cast Nat.pos_of_ne_zero (by omega)
  have hslice : 0 < sliceAngle twoPi n := div_pos htp hnpos
  refine Int.le_floor.2 ?_
  push_cast
  exact div_nonneg (normalizedRotation_nonneg twoPi rot htp hrot) hslice.le

theorem winnerIndex_lt (twoPi rot : α) (n : ℕ) (htp : 0 < twoPi)
    (hn : 1 ≤ n) (hrot : 0 ≤ rot) : winnerIndex twoPi n rot < n := by
  have hnpos : (0:α) < n := by exact_mod_cast Nat.pos_of_ne_zero (by omega)
  have hslice : 0 < sliceAngle twoPi n := div_pos htp hnpos
  refine Int.floor_lt.2 ?_
  push_cast
  rw [div_lt_iff₀ hslice]
  have : (n:α) * sliceAngle twoPi n = twoPi := by
    rw [sliceAngle, mul_div_cancel₀ _ hnpos.ne']
  rw [this]
  exact normalizedRotation_lt twoPi rot htp hrot

theorem winnerIndex_of_mod_zero (twoPi rot : α) (n : ℕ) (htp : 0 < twoPi)
    (h : jsMod rot twoPi = 0) : winnerIndex twoPi n rot = 0 := by
  rw [winnerIndex, normalizedRotation, h, sub_zero, jsMod_self twoPi htp,
    zero_div]
  exact Int.floor_zero

/-! ## Transport reconnect logic (main script, `connect` and its handlers)

The reconnect behaviour is embedded as an explicit transition system.  Timers
are modelled with identities and delays: `setTimeout` allocates a fresh id and
adds a pending timer, `clearTimeout h` removes the timer with id `h` if it is
still pending (a no-op on a fired or already-cleared handle), and a timer can
fire only while it is pending. -/

/-- The phase of the JS `WebSocket` object held in the `ws` global. -/
inductive WsPhase where
  | connecting | opened
  deriving Repr, DecidableEq

/-- A pending reconnect timer: its `setTimeout` handle and its delay. -/
structure ReconnectTimer where
  id : Nat
  delayMs : Nat
  deriving Repr, DecidableEq

/-- `const RECONNECT_INTERVAL = 3000` (main script). -/
def RECONNECT_INTERVAL : Nat := 3000

/-- The connection-related global state of the main script: the `ws` variable
(`none` models `null`), the `reconnectTimeout` handle variable (which may
refer to a timer that already fired), the pending reconnect timers of the
event loop, and a fresh-id counter for `setTimeout`. -/
structure ConnState where
  ws : Option WsPhase
  reconnectTimeout : Option Nat
  pendingReconnects : List ReconnectTimer
  nextTimerId : Nat
  deriving Repr, DecidableEq

/-- The global state before the initial `connect()` call on page load. -/
def startState : ConnState :=
  { ws := none, reconnectTimeout := none, pendingReconnects := [],
    nextTimerId := 0 }

/-- `reconnectTimeout = setTimeout(() => connect(), RECONNECT_INTERVAL)`
(main script, `ws.onclose` and the `catch` branch of `connect`): schedule a
fresh reconnect timer and store its handle.  Note that the source does not
clear any previously stored handle on this path. -/
def scheduleReconnect (c : ConnState) : ConnState :=
  { c with
    pendingReconnects :=
      c.pendingReconnects ++ [⟨c.nextTimerId, RECONNECT_INTERVAL⟩],
    reconnectTimeout := some c.nextTimerId,
    nextTimerId := c.nextTimerId + 1 }

/-- `clearTimeout h` on the event loop's pending reconnect timers: removes
the timer with handle `h` when it is still pending, otherwise a no-op. -/
def clearPending (pending : List ReconnectTimer) (h : Nat) :
    List ReconnectTimer :=
  pending.filter (fun r => r.id ≠ h)

/-- `connect()` when `new WebSocket(WS_URL)` succeeds: the `ws` global now
holds a connecting socket. -/
def connectOk (c : ConnState) : ConnState :=
  { c with ws := some WsPhase.connecting }

/-- `connect()` when the `WebSocket` constructor throws (the `catch` branch):
`ws` keeps its previous value and a reconnect is scheduled. -/
def connectFail (c : ConnState) : ConnState :=
  scheduleReconnect c

/-- The events that drive the connection state machine: the socket callbacks
`onopen`/`onerror`/`onclose`, and the firing of a pending reconnect timer
(whose `connect()` call either constructs a socket or throws). -/
inductive ConnEvent where
  | wsOpen
  | wsError
  | wsClose
  | timerFireOk (t : Nat)
  | timerFireFail (t : Nat)
  deriving Repr, DecidableEq

/-- One step of the connection state machine, translated handler by handler
from the main script's `connect`.  `none` means the event is not enabled in
this state (no socket to close, no such pending timer). -/
def connStep (c : ConnState) (e : ConnEvent) : Option ConnState :=
  match e with
  | ConnEvent.wsOpen =>
      match c.ws with
      | some WsPhase.connecting =>
          some { c with
            ws := some WsPhase.opened,
            pendingReconnects :=
              match c.reconnectTimeout with
              | some h => clearPending c.pendingReconnects h
              | none => c.pendingReconnects,
            reconnectTimeout := none }
      | _ => none
  | ConnEvent.wsError =>
      match c.ws with
      | some _ => some c
      | none => none
  | ConnEvent.wsClose =>
      match c.ws with
      | some _ => some (scheduleReconnect { c with ws := none })
      | none => none
  | ConnEvent.timerFireOk t =>
      if (c.pendingReconnects.filter (fun r => r.id = t)) = [] then none
      else some (connectOk
        { c with pendingReconnects := clearPending c.pendingReconnects t })
  | ConnEvent.timerFireFail t =>
      if (c.pendingReconnects.filter (fun r => r.id = t)) = [] then none
      else some (connectFail
        { c with pendingReconnects := clearPending c.pendingReconnects t })

/-- The states the connection machine can reach: the initial `connect()` on
page load (succeeding or throwing), followed by any sequence of enabled
events. -/
inductive Reachable : ConnState → Prop where
  | initOk : Reachable (connectOk startState)
  | initFail : Reachable (connectFail startState)
  | next {c c' : ConnState} {e : ConnEvent} : Reachable c →
      connStep c e = some c' → Reachable c'

/-- The inductive invariant of the reconnect machine: while a socket exists
no reconnect timer is pending, at most one reconnect timer is ever pending,
and every pending reconnect uses the fixed 3000 ms interval. -/
def ConnInv (c : ConnState) : Prop :=
  (c.ws ≠ none → c.pendingReconnects = []) ∧
    c.pendingReconnects.length ≤ 1 ∧
    ∀ r ∈ c.pendingReconnects, r.delayMs = RECONNECT_INTERVAL

theorem connInv_clearPending_nil {pending : List ReconnectTimer} {t : Nat}
    (hlen : pending.length ≤ 1)
    (hmem : pending.filter (fun r => r.id = t) ≠ []) :
    clearPending pending t = [] := by
  match pending with
  | [] => simp [clearPending]
  | [r] =>
      simp only [List.filter, clearPending] at *
      by_cases h : r.id = t
      · simp [h]
      · simp [h] at hmem
  | r :: s :: rest => simp at hlen

theorem reachable_connInv {c : ConnState} (h : Reachable c) : ConnInv c := by
  induction h with
  | initOk => refine ⟨?_, ?_, ?_⟩ <;> simp [connectOk, startState]
  | initFail =>
      refine ⟨?_, ?_, ?_⟩ <;>
        simp [connectFail, scheduleReconnect, startState, RECONNECT_INTERVAL]
  | next hr hstep ih =>
      obtain ⟨hws, hlen, hdelay⟩ := ih
      rename_i c c' e
      cases e with
      | wsOpen =>
          match hc : c.ws with
          | none => rw [connStep, hc] at hstep; exact absurd hstep (by simp)
          | some WsPhase.opened =>
              rw [connStep, hc] at hstep; exact absurd hstep (by simp)
          | some WsPhase.connecting =>
              have hpend : c.pendingReconnects = [] := hws (by rw [hc]; simp)
              rw [connStep, hc] at hstep
              simp only [Option.some.injEq] at hstep
              subst hstep
              refine ⟨fun _ => ?_, ?_, ?_⟩ <;>
                cases c.reconnectTimeout <;>
                  simp [hpend, clearPending]
      | wsError =>
          match hc : c.ws with
          | none => rw [connStep, hc] at hstep; exact absurd hstep (by simp)
          | some p =>
              rw [connStep, hc] at hstep
              simp only [Option.some.injEq] at hstep
              subst hstep
              exact ⟨hws, hlen, hdelay⟩
      | wsClose =>
          match hc : c.ws with
          | none => rw [connStep, hc] at hstep; exact absurd hstep (by simp)
          | some p =>
              have hpend : c.pendingReconnects = [] := hws (by rw [hc]; simp)
              rw [connStep, hc] at hstep
              simp only [Option.some.injEq] at hstep
              subst hstep
              refine ⟨?_, ?_, ?_⟩ <;>
                simp [scheduleReconnect, hpend, RECONNECT_INTERVAL]
      | timerFireOk t =>
          rw [connStep] at hstep
          by_cases hfil : (c.pendingReconnects.filter (fun r => r.id = t)) = []
          · rw [if_pos hfil] at hstep; exact absurd hstep (by simp)
          · rw [if_neg hfil] at hstep
            simp only [Option.some.injEq] at hstep
            subst hstep
            have hnil := connInv_clearPending_nil hlen hfil
            exact ⟨fun _ => by simp [connectOk, hnil],
              by simp [connectOk, hnil], by simp [connectOk, hnil]⟩
      | timerFireFail t =>
          rw [connStep] at hstep
          by_cases hfil : (c.pendingReconnects.filter (fun r => r.id = t)) = []
          · rw [if_pos hfil] at hstep; exact absurd hstep (by simp)
          · rw [if_neg hfil] at hstep
            simp only [Option.some.injEq] at hstep
            subst hstep
            have hnil := connInv_clearPending_nil hlen hfil
            have hwsnone : c.ws = none := by
              by_contra hne
              have := hws hne
              rw [this] at hfil
              exact hfil rfl
            refine ⟨?_, ?_, ?_⟩ <;>
              simp [connectFail, scheduleReconnect, hnil, hwsnone,
                RECONNECT_INTERVAL]

/-! ## Spin Engine (wheel.js, class `SpinningWheel`)

The engine is embedded as a functional state machine.  The randomised values
`Math.random()` appearing in `spin` are passed in as parameters `r1 r2`
(uniform in `[0,1)` at runtime); the animation loop is collapsed to its
completed state (`progress = 1`), which is the only point the claims are
about.  Display timers get fresh ids from a counter, mirroring `setTimeout`
handles; DOM manipulation (canvas drawing, CSS classes) is elided as the
opaque renderer the specification excludes. -/

/-- The mutable fields of a `SpinningWheel` instance relevant to the state
machine: item list, current rotation angle, the two phase flags and the two
stored timeout handles. -/
structure Wheel (α : Type) where
  items : List String
  currentRotation : α
  isSpinning : Bool
  isShowingResult : Bool
  hideTimeout : Option Nat
  resultTimeout : Option Nat
  nextTimerId : Nat
  deriving Repr, DecidableEq

/-- The state established by the `SpinningWheel` constructor. -/
def initWheel : Wheel α :=
  { items := [], currentRotation := 0, isSpinning := false,
    isShowingResult := false, hideTimeout := none, resultTimeout := none,
    nextTimerId := 0 }

/-- `setItems(items)` (wheel.js): replace the item list (and redraw). -/
def setItems (w : Wheel α) (items : List String) : Wheel α :=
  { w with items := items }

/-- `isBusy()` (wheel.js): `this.isSpinning || this.isShowingResult`. -/
def isBusy (w : Wheel α) : Bool :=
  w.isSpinning || w.isShowingResult

/-- `reset()` (wheel.js): clear both pending timeouts, hide the result text
and clear the `isShowingResult` flag. -/
def Wheel.resetState (w : Wheel α) : Wheel α :=
  { w with
      hideTimeout := none
      resultTimeout := none
      isShowingResult := false }

/-- The ease-out curve of the animation loop (wheel.js, `spin`):
`easeOut = 1 - Math.pow(1 - progress, 3)`. -/
def easeOut (progress : α) : α := 1 - (1 - progress) ^ 3

/-- `spin()` (wheel.js) collapsed to its completed state: `null` (and no
state change) when already spinning or the item list is empty; otherwise the
rotation reached at `progress = 1` is normalised into `[0, 2π)`, the winner
index is computed from it, and the engine ends in
`isShowingResult = true, isSpinning = false` resolving the winning label. -/
def spin (twoPi r1 r2 : α) (w : Wheel α) : Wheel α × Option String :=
  if w.isSpinning = true ∨ w.items.length = 0 then (w, none)
  else
    let fullRotations := 3 + r1 * 3
    let randomOffset := r2 * twoPi
    let totalRotation := fullRotations * twoPi + randomOffset
    let startRotation := w.currentRotation
    let finalRotation := jsMod (startRotation + totalRotation * easeOut 1) twoPi
    let idx := winnerIndex twoPi w.items.length finalRotation
    let winner := w.items[idx.toNat]?
    ({ w with
        currentRotation := finalRotation
        isSpinning := false
        isShowingResult := true }, winner)

/-- `showResult(result)` (wheel.js): clear any existing result timeout and
schedule the 3000 ms display-window timeout, storing its handle. -/
def showResult (w : Wheel α) : Wheel α :=
  { w with
      resultTimeout := some w.nextTimerId
      nextTimerId := w.nextTimerId + 1 }

/-- `hide()` (wheel.js): clear any existing hide timeout and schedule the
4000 ms container-hide timeout, storing its handle. -/
def Wheel.hideLater (w : Wheel α) : Wheel α :=
  { w with
      hideTimeout := some w.nextTimerId
      nextTimerId := w.nextTimerId + 1 }

/-- The `data` object of a `spin_wheel` trigger: `items` is `some l` exactly
when the field is present and `Array.isArray` holds of it, and `actions`
maps labels to payloads. -/
structure WheelData where
  items : Option (List String)
  actions : List (String × Json)

/-- `wheelData?.actions?.[result]` (wheel.js, `spinAndShow`). -/
def lookupAction (actions : List (String × Json)) (label : String) :
    Option Json :=
  actions.lookup label

/-- An outbound message produced by the Spin Engine: `wheel_result` with the
winning label and the optional action payload (an absent payload is an
`undefined` field, omitted by `JSON.stringify`). -/
inductive Msg where
  | wheelResult (result : String) (action : Option Json)

/-- `spinAndShow(wheelData)` (wheel.js): reject with a warning while busy;
otherwise reset stale timers, spin, and behind the `if (result)` truthiness
guard show the result, schedule hiding, and send exactly one `wheel_result`
through the backend transport.  The truthiness test fails both for the
`null` of a rejected spin (`none` here) and for a falsy empty-string
winning label: in those cases nothing is shown, scheduled or sent, and the
raw result is returned.  Returns the post-state, the emitted messages and
the result. -/
def spinAndShow (twoPi r1 r2 : α) (w : Wheel α) (data : WheelData) :
    Wheel α × List Msg × Option String :=
  if isBusy w = true then (w, [], none)
  else
    let w1 := w.resetState
    let p := spin twoPi r1 r2 w1
    match p.2 with
    | some res =>
        if res = "" then (p.1, [], some res)
        else
          let w3 := (showResult p.1).hideLater
          (w3, [Msg.wheelResult res (lookupAction data.actions res)],
            some res)
    | none => (p.1, [], none)

/-- A `trigger_action` event as dispatched by `handleEvent`. -/
structure TriggerEvent where
  action_type : String
  data : WheelData

/-- `handleTriggerAction(event)` (main script): on `action_type ===
'spin_wheel'`, when `data.items` is present and an array (an empty array
passes this check), replace the wheel's items and run `spinAndShow`;
otherwise warn and do nothing. -/
def handleTriggerAction (twoPi r1 r2 : α) (w : Wheel α) (ev : TriggerEvent) :
    Wheel α × List Msg :=
  if ev.action_type = "spin_wheel" then
    match ev.data.items with
    | some items =>
        let p := spinAndShow twoPi r1 r2 (setItems w items) ev.data
        (p.1, p.2.1)
    | none => (w, [])
  else (w, [])

/-! ## Atomicity of the phase flags (wheel.js, `spin` completion)

The busy flags are modelled as a record, and the source's individual flag
assignments as a list of atomic writes in source order; the intermediate
states are the fold prefixes. -/

/-- The two phase flags of the engine. -/
structure WheelFlags where
  spinningFlag : Bool
  showingFlag : Bool
  deriving Repr, DecidableEq

/-- `isBusy()` on the flag record. -/
def flagsBusy (f : WheelFlags) : Bool :=
  f.spinningFlag || f.showingFlag

/-- One atomic flag assignment. -/
inductive FlagWrite where
  | setSpinning (b : Bool)
  | setShowing (b : Bool)
  deriving Repr, DecidableEq

/-- Execute one flag assignment. -/
def applyWrite (f : WheelFlags) : FlagWrite → WheelFlags
  | FlagWrite.setSpinning b => { f with spinningFlag := b }
  | FlagWrite.setShowing b => { f with showingFlag := b }

/-- The flag writes of the Spinning → ShowingResult transition in source
order (wheel.js, `spin` completion): `this.isShowingResult = true` is
executed before `this.isSpinning = false`. -/
def completionWrites : List FlagWrite :=
  [FlagWrite.setShowing true, FlagWrite.setSpinning false]

/-- All flag writes of one accepted spin, in source order: `reset()` clears
`isShowingResult`; `spin()` sets `isSpinning`; completion sets
`isShowingResult` then clears `isSpinning`; the result-display window ends
when the fade callback clears `isShowingResult`. -/
def lifecycleWrites : List FlagWrite :=
  [FlagWrite.setShowing false, FlagWrite.setSpinning true,
   FlagWrite.setShowing true, FlagWrite.setSpinning false,
   FlagWrite.setShowing false]

/-- Both flags clear: the Idle phase. -/
def idleFlags : WheelFlags := ⟨false, false⟩

/-- Every state the flags pass through during one accepted spin, from the
Idle state before the trigger. -/
def lifecycleStates : List WheelFlags :=
  List.scanl applyWrite idleFlags lifecycleWrites

/-! ## Supporting lemmas about the Spin Engine -/

theorem spin_accepted (twoPi r1 r2 : α) (w : Wheel α) (htp : 0 < twoPi)
    (hr1 : 0 ≤ r1) (hr2 : 0 ≤ r2) (hrot : 0 ≤ w.currentRotation)
    (hspin : w.isSpinning = false) (hne : w.items ≠ []) :
    ∃ winner, winner ∈ w.items ∧ (spin twoPi r1 r2 w).2 = some winner := by
  have hn : 0 < w.items.length := List.length_pos.2 hne
  have hguard : ¬(w.isSpinning = true ∨ w.items.length = 0) := by
    push_neg
    exact ⟨by simp [hspin], by omega⟩
  have he : easeOut (1:α) = 1 := by norm_num [easeOut]
  have hraw : 0 ≤ w.currentRotation +
      ((3 + r1 * 3) * twoPi + r2 * twoPi) * easeOut 1 := by
    rw [he, mul_one]
    have h1 : (0:α) ≤ (3 + r1 * 3) * twoPi := mul_nonneg (by linarith) htp.le
    have h2 : (0:α) ≤ r2 * twoPi := mul_nonneg hr2 htp.le
    linarith
  have hf0 : 0 ≤ jsMod (w.currentRotation +
      ((3 + r1 * 3) * twoPi + r2 * twoPi) * easeOut 1) twoPi :=
    jsMod_nonneg _ _ htp hraw
  have hidx0 := winnerIndex_nonneg twoPi
    (jsMod (w.currentRotation + ((3 + r1 * 3) * twoPi + r2 * twoPi) *
      easeOut 1) twoPi) w.items.length htp hn hf0
  have hidxlt := winnerIndex_lt twoPi
    (jsMod (w.currentRotation + ((3 + r1 * 3) * twoPi + r2 * twoPi) *
      easeOut 1) twoPi) w.items.length htp hn hf0
  have htn : (winnerIndex twoPi w.items.length
      (jsMod (w.currentRotation + ((3 + r1 * 3) * twoPi + r2 * twoPi) *
        easeOut 1) twoPi)).toNat < w.items.length := by omega
  refine ⟨w.items[(winnerIndex twoPi w.items.length
    (jsMod (w.currentRotation + ((3 + r1 * 3) * twoPi + r2 * twoPi) *
      easeOut 1) twoPi)).toNat], List.getElem_mem htn, ?_⟩
  rw [spin, if_neg hguard]
  exact List.getElem?_eq_getElem htn

omit [LinearOrderedField α] [FloorRing α] in
theorem isBusy_setItems (w : Wheel α) (l : List String) :
    isBusy (setItems w l) = isBusy w := rfl

/-! ## Claim theorems -/

/-- C7: a message passed to `send` while the channel is not Connected (OPEN)
is dropped with a logged warning, nothing is queued or retried and no state
changes; while Connected, `send` serialises the message as JSON and
transmits it. -/
theorem send_guard_spec (t : Transport) (msg : Json) :
    (t.ws = some ReadyState.opened →
      send t msg = (t, SendEffect.transmitted (stringify msg))) ∧
    (t.ws ≠ some ReadyState.opened →
      send t msg = (t, SendEffect.droppedWithWarning)) ∧
    (send t msg).1 = t := by
  refine ⟨fun h => ?_, fun h => ?_, ?_⟩
  · rw [send, if_pos h]
  · rw [send, if_neg h]
  · rw [send]
    split <;> rfl

/-- Witness for C7: a connected transport transmits the serialised frame,
and a disconnected one (`ws === null`) drops the message. -/
theorem send_guard_spec_witness :
    (Transport.mk (some ReadyState.opened)).ws = some ReadyState.opened ∧
    send ⟨some ReadyState.opened⟩
        (Json.obj [("type", Json.str "request_config")]) =
      (⟨some ReadyState.opened⟩,
        SendEffect.transmitted "\x7b\"type\":\"request_config\"\x7d") ∧
    send ⟨none⟩ (Json.str "x") = (⟨none⟩, SendEffect.droppedWithWarning) :=
  ⟨rfl,
    by
      have h := (send_guard_spec ⟨some ReadyState.opened⟩
        (Json.obj [("type", Json.str "request_config")])).1 rfl
      rw [h]
      simp [stringify, stringifyFields, jsonQuote],
    (send_guard_spec ⟨none⟩ (Json.str "x")).2.1 (by simp)⟩

/-- C8: the scale produced by a resize gesture with starting scale `s` and
pointer deltas `(dx, dy)` equals `clamp(s + max(dx, dy) / 200, 0.3, 3.0)`;
from starting scale 1.0 a 1000 px delta yields 3.0 and a −1000 px delta
yields 0.3. -/
theorem resizeScale_clamp_spec :
    (∀ s dx dy : ℚ,
      resizeScale s dx dy = specClamp (s + max dx dy / 200) (3/10) 3) ∧
    resizeScale 1 1000 0 = 3 ∧
    resizeScale 1 (-1000) (-1000) = 3/10 := by
  refine ⟨fun s dx dy => ?_, by norm_num [resizeScale, max_def, min_def],
    by norm_num [resizeScale, max_def, min_def]⟩
  simp only [resizeScale, specClamp]
  rw [max_min_distrib_left, max_eq_right (by norm_num : (3:ℚ)/10 ≤ 3)]

/-- C10: when applying a server `config_update`, a falsy scale — a missing
field or the explicit value `0` — is normalised to `1.0`, not clamped to the
lower bound `0.3`. -/
theorem falsy_scale_defaults_to_one :
    normalizeScale (some 0) = 1 ∧
    normalizeScale none = 1 ∧
    (applyPositions ⟨50, 50, some 0⟩).scale = 1 ∧
    (applyPositions ⟨50, 50, some 0⟩).scale ≠ 3/10 := by
  refine ⟨rfl, rfl, rfl, by norm_num [applyPositions, normalizeScale]⟩

/-- C2 counterexample: a server-pushed `config_update` scale of `100` is
applied unchanged by `applyPositions` — out-of-range server input is not
clamped into `[0.3, 3.0]`, refuting the claim for the `config_update`
mutation path. -/
theorem applyPositions_out_of_range :
    (applyPositions ⟨50, 50, some 100⟩).scale = 100 ∧
    ¬((applyPositions ⟨50, 50, some 100⟩).scale ≤ 3) := by
  refine ⟨rfl, by norm_num [applyPositions, normalizeScale]⟩

/-- C2 (amended): the resize path clamps the applied scale into
`[0.3, 3.0]` (out-of-range input clamped, never rejected), and the reset
path applies the in-range default `1.0`; a server `config_update` normalises
a falsy scale to `1.0` and otherwise applies the server's value unchanged,
without clamping. -/
theorem scale_mutation_paths (s dx dy : ℚ) (pos : WheelPositions) :
    (3/10 ≤ resizeScale s dx dy ∧ resizeScale s dx dy ≤ 3) ∧
    (3/10 ≤ resetDefaultLayout.scale ∧ resetDefaultLayout.scale ≤ 3) ∧
    ((pos.scale = none ∨ pos.scale = some 0) →
      (applyPositions pos).scale = 1) ∧
    (∀ v, pos.scale = some v → v ≠ 0 → (applyPositions pos).scale = v) := by
  refine ⟨⟨le_max_left _ _, ?_⟩, by norm_num [resetDefaultLayout], ?_, ?_⟩
  · exact max_le (by norm_num) (min_le_left _ _)
  · rintro (h | h) <;>
      simp [applyPositions, normalizeScale, h]
  · intro v hv hv0
    simp [applyPositions, normalizeScale, hv, hv0]

/-- Witness for C2 (amended): a resize from scale 1 with a 1000 px delta is
clamped to 3, and a server scale of 0 is normalised to 1. -/
theorem scale_mutation_paths_witness :
    resizeScale 1 1000 0 = 3 ∧
    (applyPositions ⟨50, 50, some 0⟩).scale = 1 ∧
    (3/10 ≤ resizeScale 1 1000 0 ∧ resizeScale 1 1000 0 ≤ 3) :=
  ⟨by norm_num [resizeScale, max_def, min_def],
    (scale_mutation_paths 1 1000 0 ⟨50, 50, some 0⟩).2.2.1 (Or.inr rfl),
    (scale_mutation_paths 1 1000 0 ⟨50, 50, some 0⟩).1⟩

/-- C6: during the Spinning → ShowingResult transition (`isShowingResult`
is set before `isSpinning` is cleared), and more generally at every
intermediate flag state from the write that starts the spin until the write
that ends the result-display window, the busy query
`isSpinning || isShowingResult` returns true — no window exists where the
engine reports neither Spinning nor ShowingResult while a result is
pending. -/
theorem busy_flag_atomicity :
    ((lifecycleStates.drop 2).dropLast).all flagsBusy = true ∧
    (List.scanl applyWrite ⟨true, false⟩ completionWrites).all flagsBusy
      = true := by
  refine ⟨by decide, by decide⟩

/-- C5 counterexample: a connection-error event (`ws.onerror`) schedules no
reconnect attempt at all — the handler only logs, leaving zero pending
reconnect timers — refuting "for every connection-loss event (close or
connection error), exactly one reconnect attempt is scheduled". -/
theorem reconnect_error_schedules_none :
    connStep ⟨some WsPhase.opened, none, [], 5⟩ ConnEvent.wsError =
      some ⟨some WsPhase.opened, none, [], 5⟩ ∧
    (⟨some WsPhase.opened, none, [], 5⟩ : ConnState).pendingReconnects.length
      = 0 := by
  refine ⟨rfl, rfl⟩

/-- C5 (amended): a close event (and a failed `connect()` call) schedules
exactly one reconnect after the fixed 3000 ms interval, while an error event
schedules none (the close that follows it does); the source never cancels a
pending reconnect before scheduling a new one, yet in every reachable state
at most one reconnect timer is pending, because a close can only occur while
a socket exists and then no reconnect timer is pending. -/
theorem reconnect_single_pending (c : ConnState) (hc : Reachable c) :
    c.pendingReconnects.length ≤ 1 ∧
    (∀ r ∈ c.pendingReconnects, r.delayMs = RECONNECT_INTERVAL) ∧
    (c.ws ≠ none → c.pendingReconnects = []) ∧
    (∀ c', connStep c ConnEvent.wsClose = some c' →
      c'.pendingReconnects.length = 1 ∧
      ∀ r ∈ c'.pendingReconnects, r.delayMs = RECONNECT_INTERVAL) := by
  obtain ⟨hws, hlen, hdelay⟩ := reachable_connInv hc
  refine ⟨hlen, hdelay, hws, ?_⟩
  intro c' hstep
  match hcw : c.ws with
  | none => rw [connStep, hcw] at hstep; exact absurd hstep (by simp)
  | some p =>
      have hpend : c.pendingReconnects = [] := hws (by rw [hcw]; simp)
      rw [connStep, hcw] at hstep
      simp only [Option.some.injEq] at hstep
      subst hstep
      refine ⟨?_, ?_⟩ <;> simp [scheduleReconnect, hpend, RECONNECT_INTERVAL]

/-- Witness for C5 (amended): the state after the initial successful
`connect()` is reachable, has no pending reconnect, and a close event from
it schedules exactly one 3000 ms reconnect. -/
theorem reconnect_single_pending_witness :
    Reachable (connectOk startState) ∧
    (connectOk startState).pendingReconnects.length ≤ 1 ∧
    (∀ c', connStep (connectOk startState) ConnEvent.wsClose = some c' →
      c'.pendingReconnects.length = 1 ∧
      ∀ r ∈ c'.pendingReconnects, r.delayMs = RECONNECT_INTERVAL) :=
  ⟨Reachable.initOk,
    (reconnect_single_pending (connectOk startState) Reachable.initOk).1,
    (reconnect_single_pending (connectOk startState) Reachable.initOk).2.2.2⟩

theorem spinAndShow_busy (twoPi r1 r2 : α) (w : Wheel α) (data : WheelData)
    (hbusy : isBusy w = true) :
    spinAndShow twoPi r1 r2 w data = (w, [], none) := by
  rw [spinAndShow, if_pos hbusy]

theorem spinAndShow_not_busy (twoPi r1 r2 : α) (w : Wheel α)
    (data : WheelData) (hbusy : isBusy w = false) {winner : String}
    (hsp : (spin twoPi r1 r2 w.resetState).2 = some winner)
    (hres : winner ≠ "") :
    spinAndShow twoPi r1 r2 w data =
      ((showResult (spin twoPi r1 r2 w.resetState).1).hideLater,
        [Msg.wheelResult winner (lookupAction data.actions winner)],
        some winner) := by
  rw [spinAndShow, if_neg (by simp [hbusy])]
  simp only [hsp]
  rw [if_neg hres]

theorem handleTriggerAction_eq (twoPi r1 r2 : α) (w : Wheel α)
    (ev : TriggerEvent) (l : List String)
    (hty : ev.action_type = "spin_wheel") (hitems : ev.data.items = some l) :
    handleTriggerAction twoPi r1 r2 w ev =
      ((spinAndShow twoPi r1 r2 (setItems w l) ev.data).1,
        (spinAndShow twoPi r1 r2 (setItems w l) ev.data).2.1) := by
  rw [handleTriggerAction, if_pos hty, hitems]

/-- The busy wheel used in concrete instances: one item, currently in the
Spinning phase. -/
def busyWheel : Wheel ℚ :=
  { items := ["A"]
    currentRotation := 0
    isSpinning := true
    isShowingResult := false
    hideTimeout := none
    resultTimeout := none
    nextTimerId := 0 }

/-- C1 counterexample: a `spin_wheel` trigger arriving while the wheel is
busy still replaces the wheel's item set (the dispatcher calls `setItems`
before `spinAndShow` performs its busy check), refuting "the wheel's item
set ... unchanged by handling the event". -/
theorem trigger_busy_items_replaced :
    isBusy busyWheel = true ∧
    busyWheel.items = ["A"] ∧
    (handleTriggerAction (6:ℚ) 0 0 busyWheel
      ⟨"spin_wheel", some ["B", "C"], []⟩).1.items = ["B", "C"] ∧
    (handleTriggerAction (6:ℚ) 0 0 busyWheel
      ⟨"spin_wheel", some ["B", "C"], []⟩).1.items ≠ busyWheel.items := by
  refine ⟨rfl, rfl, rfl, by simp [handleTriggerAction, spinAndShow,
    busyWheel, setItems, isBusy]⟩

/-- C1 (amended): a `spin_wheel` trigger arriving while the wheel's phase is
not Idle leaves the in-flight session's state — rotation, phase flags, both
timers — unchanged and emits nothing, but the wheel's item set is replaced
with the trigger's items before the busy check rejects the spin. -/
theorem trigger_busy_rejection (twoPi r1 r2 : α) (w : Wheel α)
    (ev : TriggerEvent) (l : List String) (hbusy : isBusy w = true)
    (hty : ev.action_type = "spin_wheel") (hitems : ev.data.items = some l) :
    handleTriggerAction twoPi r1 r2 w ev = (setItems w l, []) ∧
    (handleTriggerAction twoPi r1 r2 w ev).1.currentRotation =
      w.currentRotation ∧
    (handleTriggerAction twoPi r1 r2 w ev).1.isSpinning = w.isSpinning ∧
    (handleTriggerAction twoPi r1 r2 w ev).1.isShowingResult =
      w.isShowingResult ∧
    (handleTriggerAction twoPi r1 r2 w ev).1.resultTimeout =
      w.resultTimeout ∧
    (handleTriggerAction twoPi r1 r2 w ev).1.hideTimeout = w.hideTimeout ∧
    (handleTriggerAction twoPi r1 r2 w ev).1.items = l ∧
    (handleTriggerAction twoPi r1 r2 w ev).2 = [] := by
  have hbusy1 : isBusy (setItems w l) = true := by
    rw [isBusy_setItems]
    exact hbusy
  have hmain : handleTriggerAction twoPi r1 r2 w ev = (setItems w l, []) := by
    rw [handleTriggerAction_eq twoPi r1 r2 w ev l hty hitems,
      spinAndShow_busy twoPi r1 r2 (setItems w l) ev.data hbusy1]
  refine ⟨hmain, ?_, ?_, ?_, ?_, ?_, ?_, ?_⟩ <;> rw [hmain] <;> rfl

/-- Witness for C1 (amended): from a concrete busy wheel, a trigger changes
only the item set and emits nothing. -/
theorem trigger_busy_rejection_witness :
    isBusy busyWheel = true ∧
    handleTriggerAction (6:ℚ) 0 0 busyWheel
        ⟨"spin_wheel", some ["B", "C"], []⟩ =
      (setItems busyWheel ["B", "C"], []) ∧
    (handleTriggerAction (6:ℚ) 0 0 busyWheel
      ⟨"spin_wheel", some ["B", "C"], []⟩).1.resultTimeout =
      busyWheel.resultTimeout :=
  ⟨rfl,
    (trigger_busy_rejection 6 0 0 busyWheel ⟨"spin_wheel", some ["B", "C"], []⟩
      ["B", "C"] rfl rfl rfl).1,
    (trigger_busy_rejection 6 0 0 busyWheel ⟨"spin_wheel", some ["B", "C"], []⟩
      ["B", "C"] rfl rfl rfl).2.2.2.2.1⟩

/-- C9: a `spin_wheel` trigger whose `data.items` is the empty list is
accepted by the dispatcher's list check and replaces the item set with `[]`,
but no spin session starts (`spin()` returns null on an empty item set
before setting the Spinning phase) and no `wheel_result` message is
emitted. -/
theorem trigger_empty_items_no_spin (twoPi r1 r2 : α) (w : Wheel α)
    (ev : TriggerEvent) (hty : ev.action_type = "spin_wheel")
    (hitems : ev.data.items = some []) :
    (handleTriggerAction twoPi r1 r2 w ev).1.items = [] ∧
    (handleTriggerAction twoPi r1 r2 w ev).1.isSpinning = w.isSpinning ∧
    (handleTriggerAction twoPi r1 r2 w ev).2 = [] := by
  rw [handleTriggerAction_eq twoPi r1 r2 w ev [] hty hitems]
  by_cases hbusy : isBusy (setItems w []) = true
  · rw [spinAndShow_busy twoPi r1 r2 (setItems w []) ev.data hbusy]
    exact ⟨rfl, rfl, rfl⟩
  · have h : spinAndShow twoPi r1 r2 (setItems w []) ev.data =
        ((setItems w []).resetState, [], none) := by
      rw [spinAndShow, if_neg hbusy]
      simp [spin, setItems, Wheel.resetState]
    rw [h]
    exact ⟨rfl, rfl, rfl⟩

/-- Witness for C9: an empty-items trigger on the idle wheel replaces the
items with `[]`, starts no session and emits nothing. -/
theorem trigger_empty_items_no_spin_witness :
    (⟨"spin_wheel", some [], []⟩ : TriggerEvent).action_type =
      "spin_wheel" ∧
    (handleTriggerAction (6:ℚ) 0 0 initWheel
      ⟨"spin_wheel", some [], []⟩).1.items = [] ∧
    (handleTriggerAction (6:ℚ) 0 0 initWheel
      ⟨"spin_wheel", some [], []⟩).2 = [] :=
  ⟨rfl,
    (trigger_empty_items_no_spin 6 0 0 initWheel
      ⟨"spin_wheel", some [], []⟩ rfl rfl).1,
    (trigger_empty_items_no_spin 6 0 0 initWheel
      ⟨"spin_wheel", some [], []⟩ rfl rfl).2.2⟩

/-- C4 counterexample: an accepted spin on the non-empty item list
`[""]` — a single falsy empty-string label — computes the winner `""`, and
the `if (result)` truthiness guard (wheel.js) then skips `showResult`,
`hide` and the backend send: zero `wheel_result` messages are emitted and
no display timers are scheduled (the engine is even left with
`isShowingResult = true`), refuting "exactly one `wheel_result` message is
emitted". -/
theorem wheel_result_empty_label :
    isBusy (initWheel : Wheel ℚ) = false ∧
    ([""] : List String) ≠ [] ∧
    (handleTriggerAction (6:ℚ) 0 0 initWheel
      ⟨"spin_wheel", some [""], []⟩).2 = [] ∧
    (handleTriggerAction (6:ℚ) 0 0 initWheel
      ⟨"spin_wheel", some [""], []⟩).1.resultTimeout = none ∧
    (handleTriggerAction (6:ℚ) 0 0 initWheel
      ⟨"spin_wheel", some [""], []⟩).1.hideTimeout = none ∧
    (handleTriggerAction (6:ℚ) 0 0 initWheel
      ⟨"spin_wheel", some [""], []⟩).1.isShowingResult = true := by
  refine ⟨rfl, by simp, ?_, ?_, ?_, ?_⟩ <;>
    norm_num [handleTriggerAction, spinAndShow, spin, setItems,
      Wheel.resetState, initWheel, isBusy, easeOut, jsMod, winnerIndex,
      normalizedRotation, sliceAngle]

/-- C4 (amended): an accepted `spin_wheel` trigger with a non-empty item
list all of whose labels are non-empty (truthy) strings emits exactly one
`wheel_result` message, whose `result` is one of the triggering items and
whose `action` is the payload mapped to that label in the triggering data's
`actions` (absent when none is mapped); the message is emitted at the step
that schedules the display window, while both display timers are still
pending (not after the display completes).  A falsy empty-string winner is
skipped by the `if (result)` truthiness guard and emits nothing; a trigger
rejected while busy emits zero messages. -/
theorem wheel_result_exactly_once (twoPi r1 r2 : α) (w : Wheel α)
    (ev : TriggerEvent) (l : List String) (htp : 0 < twoPi) (hr1 : 0 ≤ r1)
    (hr2 : 0 ≤ r2) (hrot : 0 ≤ w.currentRotation)
    (hty : ev.action_type = "spin_wheel") (hitems : ev.data.items = some l) :
    (isBusy w = false → l ≠ [] → (∀ s ∈ l, s ≠ "") →
      ∃ winner, winner ∈ l ∧
        (handleTriggerAction twoPi r1 r2 w ev).2 =
          [Msg.wheelResult winner (lookupAction ev.data.actions winner)] ∧
        (handleTriggerAction twoPi r1 r2 w ev).1.resultTimeout.isSome =
          true ∧
        (handleTriggerAction twoPi r1 r2 w ev).1.hideTimeout.isSome =
          true) ∧
    (isBusy w = true → (handleTriggerAction twoPi r1 r2 w ev).2 = []) := by
  constructor
  · intro hbusy hne hlabels
    have hflags : w.isSpinning = false ∧ w.isShowingResult = false := by
      rw [isBusy] at hbusy
      exact ⟨by revert hbusy; cases w.isSpinning <;> simp,
        by revert hbusy; cases w.isShowingResult <;> simp⟩
    have hspin_flag : ((setItems w l).resetState).isSpinning = false :=
      hflags.1
    have hrot2 : 0 ≤ ((setItems w l).resetState).currentRotation := hrot
    have hne2 : ((setItems w l).resetState).items ≠ [] := hne
    obtain ⟨winner, hmem, hsp⟩ := spin_accepted twoPi r1 r2
      ((setItems w l).resetState) htp hr1 hr2 hrot2 hspin_flag hne2
    have hbusy1 : isBusy (setItems w l) = false := by
      rw [isBusy_setItems]
      exact hbusy
    have hres : winner ≠ "" := hlabels winner hmem
    refine ⟨winner, hmem, ?_, ?_, ?_⟩ <;>
      rw [handleTriggerAction_eq twoPi r1 r2 w ev l hty hitems,
        spinAndShow_not_busy twoPi r1 r2 (setItems w l) ev.data hbusy1 hsp
          hres] <;>
      rfl
  · intro hbusy
    have hbusy1 : isBusy (setItems w l) = true := by
      rw [isBusy_setItems]
      exact hbusy
    rw [handleTriggerAction_eq twoPi r1 r2 w ev l hty hitems,
      spinAndShow_busy twoPi r1 r2 (setItems w l) ev.data hbusy1]

/-- Witness for C4: the end-to-end test of the specification — items
`["A", "B", "C"]`, actions mapping `"A"` to a payload — emits exactly one
`wheel_result` whose result is one of the items. -/
theorem wheel_result_exactly_once_witness :
    (0:ℚ) < 6 ∧ isBusy (initWheel : Wheel ℚ) = false ∧
    (["A", "B", "C"] : List String) ≠ [] ∧
    (∀ s ∈ (["A", "B", "C"] : List String), s ≠ "") ∧
    (∃ winner, winner ∈ (["A", "B", "C"] : List String) ∧
      (handleTriggerAction (6:ℚ) 0 0 initWheel
        ⟨"spin_wheel", some ["A", "B", "C"],
          [("A", Json.obj [("cmd", Json.num 1)])]⟩).2 =
        [Msg.wheelResult winner
          (lookupAction [("A", Json.obj [("cmd", Json.num 1)])] winner)] ∧
      (handleTriggerAction (6:ℚ) 0 0 initWheel
        ⟨"spin_wheel", some ["A", "B", "C"],
          [("A", Json.obj [("cmd", Json.num 1)])]⟩).1.resultTimeout.isSome =
        true ∧
      (handleTriggerAction (6:ℚ) 0 0 initWheel
        ⟨"spin_wheel", some ["A", "B", "C"],
          [("A", Json.obj [("cmd", Json.num 1)])]⟩).1.hideTimeout.isSome =
        true) :=
  ⟨by norm_num, rfl, by simp, by decide,
    (wheel_result_exactly_once 6 0 0 initWheel
      ⟨"spin_wheel", some ["A", "B", "C"],
        [("A", Json.obj [("cmd", Json.num 1)])]⟩ ["A", "B", "C"]
      (by norm_num) le_rfl le_rfl le_rfl rfl rfl).1 rfl (by simp)
      (by decide)⟩

/-- C3: for every item count `n ≥ 1` and every nonnegative final rotation
angle, the winner index equals
`floor(((twoPi − rot mod twoPi) mod twoPi) / (twoPi / n))`, lies in
`[0, n)`, and equals `0` whenever `rot mod twoPi = 0` — for every positive
value of the constant `twoPi`, in particular the real 2π. -/
theorem winnerIndex_spec (twoPi rot : α) (n : ℕ) (htp : 0 < twoPi)
    (hn : 0 < n) (hrot : 0 ≤ rot) :
    winnerIndex twoPi n rot =
      ⌊jsMod (twoPi - jsMod rot twoPi) twoPi / (twoPi / n)⌋ ∧
    0 ≤ winnerIndex twoPi n rot ∧ winnerIndex twoPi n rot < n ∧
    (jsMod rot twoPi = 0 → winnerIndex twoPi n rot = 0) :=
  ⟨rfl, winnerIndex_nonneg twoPi rot n htp hn hrot,
    winnerIndex_lt twoPi rot n htp hn hrot,
    fun h => winnerIndex_of_mod_zero twoPi rot n htp h⟩

/-- Witness for C3: with `twoPi = 6`, 3 items and final rotation 1 the
winner index is 2; with rotation 12 (`12 mod 6 = 0`) it is 0. -/
theorem winnerIndex_spec_witness :
    (0:ℚ) < 6 ∧ 0 < 3 ∧ (0:ℚ) ≤ 1 ∧
    winnerIndex (6:ℚ) 3 1 = 2 ∧
    (0 ≤ winnerIndex (6:ℚ) 3 1 ∧ winnerIndex (6:ℚ) 3 1 < 3) ∧
    jsMod (12:ℚ) 6 = 0 ∧ winnerIndex (6:ℚ) 3 12 = 0 :=
  ⟨by norm_num, by norm_num, by norm_num,
    by norm_num [winnerIndex, normalizedRotation, sliceAngle, jsMod],
    ⟨(winnerIndex_spec (6:ℚ) 1 3 (by norm_num) (by norm_num)
        (by norm_num)).2.1,
      (winnerIndex_spec (6:ℚ) 1 3 (by norm_num) (by norm_num)
        (by norm_num)).2.2.1⟩,
    by norm_num [jsMod],
    (winnerIndex_spec (6:ℚ) 12 3 (by norm_num) (by norm_num)
      (by norm_num)).2.2.2 (by norm_num [jsMod])⟩

end Yambot
